import Mathlib

/-!
Verification of the access-control rules of the judicial case-management
repository.  The authoritative source is the SQL migration
(`supabase/migrations`): table definitions and the row-level-security (RLS)
policies declared there.  Tables are embedded as lists of rows; each RLS
policy's `USING` / `WITH CHECK` clause is translated into a Bool-valued
predicate over a database snapshot, the caller identity (`auth.uid()`,
absent for an unauthenticated caller) and the row.  Postgres RLS semantics:
once RLS is enabled on a table, a command is permitted on a row iff some
policy for that command applies to the caller's role and its clause holds;
with no policy for the command, the command is denied for every caller.
-/

namespace CircleAccess

/-- Opaque unique identifier (`uuid` in the schema). -/
abbrev Uuid := Nat

/-- `CREATE TYPE user_role AS ENUM ('judge', 'clerk', 'trainee')`. -/
inductive UserRole
  | judge
  | clerk
  | trainee
deriving DecidableEq, Repr

/-- `CREATE TYPE case_status AS ENUM ('open', 'in_progress', 'under_review', 'closed')`
(`open` is a Lean keyword, so the first constructor carries a trailing underscore). -/
inductive CaseStatus
  | open_
  | in_progress
  | under_review
  | closed
deriving DecidableEq, Repr

/-- `CREATE TYPE case_priority AS ENUM ('low', 'medium', 'high', 'urgent')`. -/
inductive CasePriority
  | low
  | medium
  | high
  | urgent
deriving DecidableEq, Repr

/-- `CREATE TYPE circle_role AS ENUM ('primary', 'collaborating', 'consulting')`. -/
inductive CircleRole
  | primary
  | collaborating
  | consulting
deriving DecidableEq, Repr

/-- A row of `judicial_circles`. -/
structure Circle where
  id : Uuid
  name : String
  description : Option String
  created_at : Nat
deriving DecidableEq, Repr

/-- A row of `user_profiles`; `circle_id` is nullable in the schema. -/
structure UserProfile where
  id : Uuid
  full_name : String
  role : UserRole
  circle_id : Option Uuid
  employee_id : String
  created_at : Nat
deriving DecidableEq, Repr

/-- A row of `cases`. -/
structure Case where
  id : Uuid
  case_number : String
  title : String
  description : Option String
  status : CaseStatus
  priority : CasePriority
  primary_circle_id : Uuid
  created_by : Uuid
  assigned_judge : Option Uuid
  created_at : Nat
  updated_at : Nat
deriving DecidableEq, Repr

/-- A row of `case_circles` (collaboration links); `UNIQUE(case_id, circle_id)`. -/
structure CaseCircle where
  id : Uuid
  case_id : Uuid
  circle_id : Uuid
  role : CircleRole
  added_at : Nat
  added_by : Uuid
deriving DecidableEq, Repr

/-- A row of `case_threads`. -/
structure CaseThread where
  id : Uuid
  case_id : Uuid
  title : String
  created_by : Uuid
  created_at : Nat
deriving DecidableEq, Repr

/-- A row of `case_messages`; `edited_at` is nullable. -/
structure CaseMessage where
  id : Uuid
  thread_id : Uuid
  content : String
  sender_id : Uuid
  created_at : Nat
  edited_at : Option Nat
deriving DecidableEq, Repr

/-- A row of `case_documents`. -/
structure CaseDocument where
  id : Uuid
  case_id : Uuid
  file_name : String
  file_path : String
  file_type : String
  file_size : Nat
  ocr_content : Option String
  uploaded_by : Uuid
  uploaded_at : Nat
deriving DecidableEq, Repr

/-- A row of `audit_logs`; `user_id` is nullable (absent for system actions),
`details` is an opaque jsonb payload. -/
structure AuditLog where
  id : Uuid
  user_id : Option Uuid
  action : String
  resource_type : String
  resource_id : Option Uuid
  details : String
  ip_address : Option String
  user_agent : Option String
  created_at : Nat
deriving DecidableEq, Repr

/-- A snapshot of the database: one list of rows per table of the migration. -/
structure DB where
  judicial_circles : List Circle
  user_profiles : List UserProfile
  cases : List Case
  case_circles : List CaseCircle
  case_threads : List CaseThread
  case_messages : List CaseMessage
  case_documents : List CaseDocument
  audit_logs : List AuditLog
deriving DecidableEq, Repr

/-- The caller identity: `auth.uid()` yields a uuid for an authenticated
caller and is absent for an unauthenticated one. -/
abbrev Actor := Option Uuid

/-- Every policy of the migration is declared `TO authenticated`: it applies
only when the caller is authenticated; an unauthenticated caller matches no
policy and is denied. -/
def toAuthenticated (a : Actor) (f : Uuid → Bool) : Bool :=
  match a with
  | some uid => f uid
  | none => false

/-- `SELECT circle_id FROM user_profiles WHERE id = auth.uid()` — the circle
ids of the caller's profile rows (a NULL `circle_id` contributes nothing to
the `IN` test, hence `filterMap`). -/
def userCircleIds (db : DB) (uid : Uuid) : List Uuid :=
  (db.user_profiles.filter (fun p => p.id == uid)).filterMap (fun p => p.circle_id)

/-- `SELECT circle_id FROM user_profiles WHERE id = auth.uid() AND role IN ('judge', 'clerk')`. -/
def judgeClerkCircleIds (db : DB) (uid : Uuid) : List Uuid :=
  (db.user_profiles.filter
      (fun p => p.id == uid && (p.role == UserRole.judge || p.role == UserRole.clerk))).filterMap
    (fun p => p.circle_id)

/-- `USING` clause of policy "Users can view cases in their circle or
collaborating circles" (`cases FOR SELECT`): the case's primary circle is one
of the caller's circles, or the case's id appears in a `case_circles` row
whose circle is one of the caller's circles. -/
def cases_select_using (db : DB) (uid : Uuid) (c : Case) : Bool :=
  (userCircleIds db uid).contains c.primary_circle_id
    || db.case_circles.any
        (fun l => l.case_id == c.id && (userCircleIds db uid).contains l.circle_id)

/-- SELECT on `cases`. -/
def cases_select_allowed (db : DB) (a : Actor) (c : Case) : Bool :=
  toAuthenticated a (fun uid => cases_select_using db uid c)

/-- `WITH CHECK` clause of policy "Judges and clerks can create cases"
(`cases FOR INSERT`): the caller has a profile whose role is judge or clerk.
The inserted row itself is not constrained. -/
def cases_insert_check (db : DB) (uid : Uuid) : Bool :=
  db.user_profiles.any
    (fun p => p.id == uid && (p.role == UserRole.judge || p.role == UserRole.clerk))

/-- INSERT on `cases`. -/
def cases_insert_allowed (db : DB) (a : Actor) (_c : Case) : Bool :=
  toAuthenticated a (fun uid => cases_insert_check db uid)

/-- `USING` clause of policy "Judges and clerks can update cases in their
circle" (`cases FOR UPDATE`): the case's primary circle is one of the
caller's judge/clerk circles. -/
def cases_update_using (db : DB) (uid : Uuid) (c : Case) : Bool :=
  (judgeClerkCircleIds db uid).contains c.primary_circle_id

/-- UPDATE on `cases`: the `USING` clause filters the existing row and, with
no separate `WITH CHECK` declared, also checks the updated row. -/
def cases_update_allowed (db : DB) (a : Actor) (old curr : Case) : Bool :=
  toAuthenticated a (fun uid => cases_update_using db uid old && cases_update_using db uid curr)

/-- RLS default deny: the migration enables RLS on `cases` and declares no
DELETE policy, so DELETE is denied for every caller. -/
def cases_delete_allowed (_db : DB) (_a : Actor) (_c : Case) : Bool :=
  false

/-- Shared body of the nested subquery
`case_id IN (SELECT id FROM cases WHERE primary_circle_id IN (...) OR id IN
(SELECT case_id FROM case_circles WHERE circle_id IN (...)))` used by the
`case_circles`, `case_threads`, `case_messages` and `case_documents`
policies: some `cases` row with the given id satisfies the case-view
predicate. -/
def accessibleCase (db : DB) (uid : Uuid) (caseId : Uuid) : Bool :=
  db.cases.any (fun c => c.id == caseId && cases_select_using db uid c)

/-- SELECT on `case_circles`, policy "Users can view case circles for
accessible cases". -/
def case_circles_select_allowed (db : DB) (a : Actor) (l : CaseCircle) : Bool :=
  toAuthenticated a (fun uid => accessibleCase db uid l.case_id)

/-- RLS default deny: the migration enables RLS on `case_circles` and
declares only a SELECT policy, so INSERT is denied for every caller. -/
def case_circles_insert_allowed (_db : DB) (_a : Actor) (_l : CaseCircle) : Bool :=
  false

/-- RLS default deny: no UPDATE policy on `case_circles`. -/
def case_circles_update_allowed (_db : DB) (_a : Actor) (_old _curr : CaseCircle) : Bool :=
  false

/-- RLS default deny: no DELETE policy on `case_circles`. -/
def case_circles_delete_allowed (_db : DB) (_a : Actor) (_l : CaseCircle) : Bool :=
  false

/-- SELECT on `case_threads`, policy "Users can view threads for accessible
cases". -/
def case_threads_select_allowed (db : DB) (a : Actor) (t : CaseThread) : Bool :=
  toAuthenticated a (fun uid => accessibleCase db uid t.case_id)

/-- INSERT on `case_threads`, policy "Users can create threads for
accessible cases". -/
def case_threads_insert_allowed (db : DB) (a : Actor) (t : CaseThread) : Bool :=
  toAuthenticated a (fun uid => accessibleCase db uid t.case_id)

/-- RLS default deny: no UPDATE policy on `case_threads`. -/
def case_threads_update_allowed (_db : DB) (_a : Actor) (_old _curr : CaseThread) : Bool :=
  false

/-- RLS default deny: no DELETE policy on `case_threads`. -/
def case_threads_delete_allowed (_db : DB) (_a : Actor) (_t : CaseThread) : Bool :=
  false

/-- `thread_id IN (SELECT id FROM case_threads WHERE case_id IN (...))`:
some `case_threads` row with the given id belongs to an accessible case. -/
def accessibleThread (db : DB) (uid : Uuid) (threadId : Uuid) : Bool :=
  db.case_threads.any (fun t => t.id == threadId && accessibleCase db uid t.case_id)

/-- SELECT on `case_messages`, policy "Users can view messages in accessible
threads". -/
def case_messages_select_allowed (db : DB) (a : Actor) (m : CaseMessage) : Bool :=
  toAuthenticated a (fun uid => accessibleThread db uid m.thread_id)

/-- INSERT on `case_messages`, policy "Users can send messages in accessible
threads". -/
def case_messages_insert_allowed (db : DB) (a : Actor) (m : CaseMessage) : Bool :=
  toAuthenticated a (fun uid => accessibleThread db uid m.thread_id)

/-- RLS default deny: the migration enables RLS on `case_messages` and
declares only SELECT and INSERT policies, so UPDATE is denied for every
caller. -/
def case_messages_update_allowed (_db : DB) (_a : Actor) (_old _curr : CaseMessage) : Bool :=
  false

/-- RLS default deny: no DELETE policy on `case_messages`. -/
def case_messages_delete_allowed (_db : DB) (_a : Actor) (_m : CaseMessage) : Bool :=
  false

/-- SELECT on `case_documents`, policy "Users can view documents for
accessible cases". -/
def case_documents_select_allowed (db : DB) (a : Actor) (d : CaseDocument) : Bool :=
  toAuthenticated a (fun uid => accessibleCase db uid d.case_id)

/-- INSERT on `case_documents`, policy "Users can upload documents to
accessible cases". -/
def case_documents_insert_allowed (db : DB) (a : Actor) (d : CaseDocument) : Bool :=
  toAuthenticated a (fun uid => accessibleCase db uid d.case_id)

/-- RLS default deny: no UPDATE policy on `case_documents`. -/
def case_documents_update_allowed (_db : DB) (_a : Actor) (_old _curr : CaseDocument) : Bool :=
  false

/-- RLS default deny: no DELETE policy on `case_documents`. -/
def case_documents_delete_allowed (_db : DB) (_a : Actor) (_d : CaseDocument) : Bool :=
  false

/-- SELECT on `audit_logs`, policy "Judges can view all audit logs in their
circle": the `USING` clause only requires the caller to have a profile with
role judge — it does not mention the audit row or any circle. -/
def audit_logs_select_allowed (db : DB) (a : Actor) (_e : AuditLog) : Bool :=
  toAuthenticated a
    (fun uid => db.user_profiles.any (fun p => p.id == uid && p.role == UserRole.judge))

/-- INSERT on `audit_logs`, policy "System can insert audit logs":
`WITH CHECK (true)` — every authenticated caller may insert any audit row. -/
def audit_logs_insert_allowed (_db : DB) (a : Actor) (_e : AuditLog) : Bool :=
  toAuthenticated a (fun _ => true)

/-- RLS default deny: no UPDATE policy on `audit_logs`. -/
def audit_logs_update_allowed (_db : DB) (_a : Actor) (_old _curr : AuditLog) : Bool :=
  false

/-- RLS default deny: no DELETE policy on `audit_logs`. -/
def audit_logs_delete_allowed (_db : DB) (_a : Actor) (_e : AuditLog) : Bool :=
  false

/-- SELECT on `judicial_circles`, policy "Users can view circles they belong
to". -/
def judicial_circles_select_allowed (db : DB) (a : Actor) (c : Circle) : Bool :=
  toAuthenticated a (fun uid => (userCircleIds db uid).contains c.id)

/-- RLS default deny: no INSERT policy on `judicial_circles`. -/
def judicial_circles_insert_allowed (_db : DB) (_a : Actor) (_c : Circle) : Bool :=
  false

/-- RLS default deny: no UPDATE policy on `judicial_circles`. -/
def judicial_circles_update_allowed (_db : DB) (_a : Actor) (_old _curr : Circle) : Bool :=
  false

/-- RLS default deny: no DELETE policy on `judicial_circles`. -/
def judicial_circles_delete_allowed (_db : DB) (_a : Actor) (_c : Circle) : Bool :=
  false

/-- SELECT on `user_profiles`, policy "Users can view their own profile". -/
def user_profiles_select_allowed (_db : DB) (a : Actor) (p : UserProfile) : Bool :=
  toAuthenticated a (fun uid => p.id == uid)

/-- RLS default deny: no INSERT policy on `user_profiles`. -/
def user_profiles_insert_allowed (_db : DB) (_a : Actor) (_p : UserProfile) : Bool :=
  false

/-- UPDATE on `user_profiles`, policy "Users can update their own profile":
`USING (id = auth.uid())` filters the existing row and, with no separate
`WITH CHECK`, also checks the updated row. -/
def user_profiles_update_allowed (_db : DB) (a : Actor) (old curr : UserProfile) : Bool :=
  toAuthenticated a (fun uid => old.id == uid && curr.id == uid)

/-- RLS default deny: no DELETE policy on `user_profiles`. -/
def user_profiles_delete_allowed (_db : DB) (_a : Actor) (_p : UserProfile) : Bool :=
  false

/-- The entitled-circle set of a case id, following the spec's definition
`{primary_circle_id} ∪ {circle_id : link.case_id = case.id}` read over the
schema's tables: the primary circles of the `cases` rows carrying that id
together with the circles of the `case_circles` rows referencing it. -/
def entitledCircles (db : DB) (caseId : Uuid) : List Uuid :=
  ((db.cases.filter (fun c => c.id == caseId)).map (fun c => c.primary_circle_id))
    ++ ((db.case_circles.filter (fun l => l.case_id == caseId)).map (fun l => l.circle_id))

/-- `log_audit_event(p_action, p_resource_type, p_resource_id, p_details)`:
a `SECURITY DEFINER` function that inserts an `audit_logs` row with
`user_id := auth.uid()` (NULL for an unauthenticated caller).  Because it is
`SECURITY DEFINER`, it runs with its owner's privileges and is not subject
to the `audit_logs` RLS policies: it performs no authorization check and
never fails. -/
def log_audit_event (a : Actor) (p_action p_resource_type : String)
    (p_resource_id : Option Uuid) (p_details : String) (newId : Uuid) (now : Nat)
    (db : DB) : DB :=
  { db with
    audit_logs := db.audit_logs ++
      [{ id := newId, user_id := a, action := p_action,
         resource_type := p_resource_type, resource_id := p_resource_id,
         details := p_details, ip_address := none, user_agent := none,
         created_at := now }] }

/-- One RLS-gated mutation of the database by caller `a`: an INSERT appends a
row, an UPDATE replaces a single row in place, a DELETE removes one; each is
guarded by the corresponding policy-derived predicate (constantly false for a
command the migration declares no policy for).  The uuid primary key of a row
is generated at insert (`DEFAULT gen_random_uuid()`) and never set by the
application, so updates carry the hypothesis that the id is unchanged. -/
inductive Step (a : Actor) : DB → DB → Prop
  | insertCircle (db : DB) (c : Circle) :
      judicial_circles_insert_allowed db a c = true →
      Step a db { db with judicial_circles := db.judicial_circles ++ [c] }
  | updateCircle (db : DB) (l₁ l₂ : List Circle) (c c' : Circle) :
      db.judicial_circles = l₁ ++ c :: l₂ → c'.id = c.id →
      judicial_circles_update_allowed db a c c' = true →
      Step a db { db with judicial_circles := l₁ ++ c' :: l₂ }
  | deleteCircle (db : DB) (l₁ l₂ : List Circle) (c : Circle) :
      db.judicial_circles = l₁ ++ c :: l₂ →
      judicial_circles_delete_allowed db a c = true →
      Step a db { db with judicial_circles := l₁ ++ l₂ }
  | insertProfile (db : DB) (p : UserProfile) :
      user_profiles_insert_allowed db a p = true →
      Step a db { db with user_profiles := db.user_profiles ++ [p] }
  | updateProfile (db : DB) (l₁ l₂ : List UserProfile) (p p' : UserProfile) :
      db.user_profiles = l₁ ++ p :: l₂ → p'.id = p.id →
      user_profiles_update_allowed db a p p' = true →
      Step a db { db with user_profiles := l₁ ++ p' :: l₂ }
  | deleteProfile (db : DB) (l₁ l₂ : List UserProfile) (p : UserProfile) :
      db.user_profiles = l₁ ++ p :: l₂ →
      user_profiles_delete_allowed db a p = true →
      Step a db { db with user_profiles := l₁ ++ l₂ }
  | insertCase (db : DB) (c : Case) :
      cases_insert_allowed db a c = true →
      Step a db { db with cases := db.cases ++ [c] }
  | updateCase (db : DB) (l₁ l₂ : List Case) (c c' : Case) :
      db.cases = l₁ ++ c :: l₂ → c'.id = c.id →
      cases_update_allowed db a c c' = true →
      Step a db { db with cases := l₁ ++ c' :: l₂ }
  | deleteCase (db : DB) (l₁ l₂ : List Case) (c : Case) :
      db.cases = l₁ ++ c :: l₂ →
      cases_delete_allowed db a c = true →
      Step a db { db with cases := l₁ ++ l₂ }
  | insertLink (db : DB) (l : CaseCircle) :
      case_circles_insert_allowed db a l = true →
      Step a db { db with case_circles := db.case_circles ++ [l] }
  | updateLink (db : DB) (l₁ l₂ : List CaseCircle) (l l' : CaseCircle) :
      db.case_circles = l₁ ++ l :: l₂ → l'.id = l.id →
      case_circles_update_allowed db a l l' = true →
      Step a db { db with case_circles := l₁ ++ l' :: l₂ }
  | deleteLink (db : DB) (l₁ l₂ : List CaseCircle) (l : CaseCircle) :
      db.case_circles = l₁ ++ l :: l₂ →
      case_circles_delete_allowed db a l = true →
      Step a db { db with case_circles := l₁ ++ l₂ }
  | insertThread (db : DB) (t : CaseThread) :
      case_threads_insert_allowed db a t = true →
      Step a db { db with case_threads := db.case_threads ++ [t] }
  | updateThread (db : DB) (l₁ l₂ : List CaseThread) (t t' : CaseThread) :
      db.case_threads = l₁ ++ t :: l₂ → t'.id = t.id →
      case_threads_update_allowed db a t t' = true →
      Step a db { db with case_threads := l₁ ++ t' :: l₂ }
  | deleteThread (db : DB) (l₁ l₂ : List CaseThread) (t : CaseThread) :
      db.case_threads = l₁ ++ t :: l₂ →
      case_threads_delete_allowed db a t = true →
      Step a db { db with case_threads := l₁ ++ l₂ }
  | insertMessage (db : DB) (m : CaseMessage) :
      case_messages_insert_allowed db a m = true →
      Step a db { db with case_messages := db.case_messages ++ [m] }
  | updateMessage (db : DB) (l₁ l₂ : List CaseMessage) (m m' : CaseMessage) :
      db.case_messages = l₁ ++ m :: l₂ → m'.id = m.id →
      case_messages_update_allowed db a m m' = true →
      Step a db { db with case_messages := l₁ ++ m' :: l₂ }
  | deleteMessage (db : DB) (l₁ l₂ : List CaseMessage) (m : CaseMessage) :
      db.case_messages = l₁ ++ m :: l₂ →
      case_messages_delete_allowed db a m = true →
      Step a db { db with case_messages := l₁ ++ l₂ }
  | insertDocument (db : DB) (d : CaseDocument) :
      case_documents_insert_allowed db a d = true →
      Step a db { db with case_documents := db.case_documents ++ [d] }
  | updateDocument (db : DB) (l₁ l₂ : List CaseDocument) (d d' : CaseDocument) :
      db.case_documents = l₁ ++ d :: l₂ → d'.id = d.id →
      case_documents_update_allowed db a d d' = true →
      Step a db { db with case_documents := l₁ ++ d' :: l₂ }
  | deleteDocument (db : DB) (l₁ l₂ : List CaseDocument) (d : CaseDocument) :
      db.case_documents = l₁ ++ d :: l₂ →
      case_documents_delete_allowed db a d = true →
      Step a db { db with case_documents := l₁ ++ l₂ }
  | insertAudit (db : DB) (e : AuditLog) :
      audit_logs_insert_allowed db a e = true →
      Step a db { db with audit_logs := db.audit_logs ++ [e] }
  | updateAudit (db : DB) (l₁ l₂ : List AuditLog) (e e' : AuditLog) :
      db.audit_logs = l₁ ++ e :: l₂ → e'.id = e.id →
      audit_logs_update_allowed db a e e' = true →
      Step a db { db with audit_logs := l₁ ++ e' :: l₂ }
  | deleteAudit (db : DB) (l₁ l₂ : List AuditLog) (e : AuditLog) :
      db.audit_logs = l₁ ++ e :: l₂ →
      audit_logs_delete_allowed db a e = true →
      Step a db { db with audit_logs := l₁ ++ l₂ }

/-- Modelled from the spec: rule 6 of the Policy Evaluator — "Manage
collaboration: Allowed iff `actor.role ∈ {judge, clerk}` AND
`actor.home_circle == case.primary_circle_id`".  The component implementing
collaboration management (`CollaborationManager`) is not among the available
sources; under the migration's RLS alone, inserting into `case_circles` is
denied outright (`case_circles_insert_allowed`), so this evaluator rule is
taken from the spec's words. -/
def manage_collaboration_allowed (db : DB) (uid : Uuid) (c : Case) : Bool :=
  db.user_profiles.any (fun p =>
    p.id == uid && (p.role == UserRole.judge || p.role == UserRole.clerk)
      && p.circle_id == some c.primary_circle_id)

/-- Modelled from the spec: `addCollaboration(caseId, circleId, addedBy)` of
the Relationship Index (§4.1) — "inserts a link if absent; no-op if present
(idempotent). Fails with `PermissionDenied` if `addedBy` is not authorized to
modify the case (delegates to the Policy Evaluator for a
`manage_collaboration` action)"; `NotFound` when the case does not exist.
The implementing component (`CollaborationManager`) is not among the
available sources. -/
def addCollaboration (db : DB) (caseId circleId addedBy : Uuid)
    (newId : Uuid) (now : Nat) : Except String DB :=
  match db.cases.find? (fun c => c.id == caseId) with
  | none => Except.error "NotFound"
  | some c =>
    if manage_collaboration_allowed db addedBy c then
      if db.case_circles.any (fun l => l.case_id == caseId && l.circle_id == circleId) then
        Except.ok db
      else
        Except.ok { db with case_circles := db.case_circles ++
          [{ id := newId, case_id := caseId, circle_id := circleId,
             role := CircleRole.collaborating, added_at := now, added_by := addedBy }] }
    else Except.error "PermissionDenied"

/-- Rows of a table whose mapped primary keys are duplicate-free determine
each other: two rows with the same key are the same row. -/
theorem row_unique {α : Type} (f : α → Uuid) {l : List α}
    (hnd : (l.map f).Nodup) {x y : α} (hx : x ∈ l) (hy : y ∈ l)
    (hf : f x = f y) : x = y :=
  List.inj_on_of_nodup_map hnd hx hy hf

/-- Under a duplicate-free `user_profiles` table, the caller's circle list is
exactly the home circle of the caller's profile row: membership in
`userCircleIds` coincides with being that circle. -/
theorem userCircleIds_char (db : DB) (uid : Uuid) (p : UserProfile)
    (hnd : (db.user_profiles.map (fun q => q.id)).Nodup)
    (hp : p ∈ db.user_profiles) (hid : p.id = uid) :
    ∀ x, x ∈ userCircleIds db uid ↔ p.circle_id = some x := by
  intro x
  simp only [userCircleIds, List.mem_filterMap, List.mem_filter, beq_iff_eq]
  constructor
  · rintro ⟨q, ⟨hq, hqid⟩, hqc⟩
    have : q = p := row_unique (fun r => r.id) hnd hq hp (hqid.trans hid.symm)
    rw [← this]; exact hqc
  · intro hc
    exact ⟨p, ⟨hp, hid⟩, hc⟩

/-- Under a duplicate-free `user_profiles` table, membership in the caller's
judge/clerk circle list means: the caller's profile row has that home circle
and a judge or clerk role. -/
theorem judgeClerkCircleIds_char (db : DB) (uid : Uuid) (p : UserProfile)
    (hnd : (db.user_profiles.map (fun q => q.id)).Nodup)
    (hp : p ∈ db.user_profiles) (hid : p.id = uid) :
    ∀ x, x ∈ judgeClerkCircleIds db uid ↔
      p.circle_id = some x ∧ (p.role = UserRole.judge ∨ p.role = UserRole.clerk) := by
  intro x
  simp only [judgeClerkCircleIds, List.mem_filterMap, List.mem_filter, Bool.and_eq_true,
    Bool.or_eq_true, beq_iff_eq]
  constructor
  · rintro ⟨q, ⟨hq, hqid, hqrole⟩, hqc⟩
    have : q = p := row_unique (fun r => r.id) hnd hq hp (hqid.trans hid.symm)
    subst this; exact ⟨hqc, hqrole⟩
  · rintro ⟨hc, hrole⟩
    exact ⟨p, ⟨hp, hid, hrole⟩, hc⟩

/-! Concrete fixture rows, mirroring the spec's example scenario: circle 10
is primary on case 100, circle 20 is added as a collaborator, circle 30 is
never linked. -/

/-- Fixture: a judge whose home circle is circle 10. -/
def judgeA : UserProfile :=
  { id := 1, full_name := "judge a", role := UserRole.judge, circle_id := some 10,
    employee_id := "E1", created_at := 0 }

/-- Fixture: a clerk whose home circle is circle 20. -/
def clerkB : UserProfile :=
  { id := 2, full_name := "clerk b", role := UserRole.clerk, circle_id := some 20,
    employee_id := "E2", created_at := 0 }

/-- Fixture: a trainee whose home circle is circle 30. -/
def traineeC : UserProfile :=
  { id := 3, full_name := "trainee c", role := UserRole.trainee, circle_id := some 30,
    employee_id := "E3", created_at := 0 }

/-- Fixture: a judge with no home circle (`circle_id` NULL). -/
def judgeNoCircle : UserProfile :=
  { id := 4, full_name := "judge d", role := UserRole.judge, circle_id := none,
    employee_id := "E4", created_at := 0 }

/-- Fixture: a case whose primary circle is circle 10. -/
def case1 : Case :=
  { id := 100, case_number := "CASE-1", title := "t", description := none,
    status := CaseStatus.open_, priority := CasePriority.medium,
    primary_circle_id := 10, created_by := 1, assigned_judge := none,
    created_at := 0, updated_at := 0 }

/-- Fixture: the collaboration link attaching circle 20 to case 100. -/
def link1 : CaseCircle :=
  { id := 200, case_id := 100, circle_id := 20, role := CircleRole.collaborating,
    added_at := 0, added_by := 1 }

/-- Fixture: a thread of case 100. -/
def thread1 : CaseThread :=
  { id := 300, case_id := 100, title := "th", created_by := 1, created_at := 0 }

/-- Fixture: a message of thread 300. -/
def message1 : CaseMessage :=
  { id := 400, thread_id := 300, content := "hi", sender_id := 2,
    created_at := 0, edited_at := none }

/-- Fixture: an audit row. -/
def audit1 : AuditLog :=
  { id := 500, user_id := some 1, action := "case_update", resource_type := "case",
    resource_id := some 100, details := "", ip_address := none, user_agent := none,
    created_at := 0 }

/-- Fixture database holding the rows above. -/
def db1 : DB :=
  { judicial_circles :=
      [{ id := 10, name := "A", description := none, created_at := 0 },
       { id := 20, name := "B", description := none, created_at := 0 },
       { id := 30, name := "C", description := none, created_at := 0 }],
    user_profiles := [judgeA, clerkB, traineeC, judgeNoCircle],
    cases := [case1],
    case_circles := [link1],
    case_threads := [thread1],
    case_messages := [message1],
    case_documents := [],
    audit_logs := [audit1] }

/-- C1: for every authenticated actor with a home circle and every case,
viewing the case is allowed if and only if the actor's home circle belongs
to the case's entitled-circle set (its primary circle together with every
circle linked to it by a collaboration link). -/
theorem case_view_iff_home_circle_entitled (db : DB) (uid : Uuid)
    (p : UserProfile) (h : Uuid) (c : Case)
    (hndp : (db.user_profiles.map (fun q => q.id)).Nodup)
    (hndc : (db.cases.map (fun k => k.id)).Nodup)
    (hp : p ∈ db.user_profiles) (hpid : p.id = uid) (hph : p.circle_id = some h)
    (hc : c ∈ db.cases) :
    cases_select_allowed db (some uid) c = true ↔ h ∈ entitledCircles db c.id := by
  have hchar := userCircleIds_char db uid p hndp hp hpid
  simp only [cases_select_allowed, toAuthenticated, cases_select_using,
    Bool.or_eq_true, List.contains, List.elem_iff, List.any_eq_true,
    Bool.and_eq_true, beq_iff_eq, entitledCircles, List.mem_append,
    List.mem_map, List.mem_filter]
  constructor
  · rintro (hprim | ⟨l, hl, hlcase, hlcirc⟩)
    · rw [hchar, hph] at hprim
      exact Or.inl ⟨c, ⟨hc, rfl⟩, (Option.some_inj.mp hprim).symm⟩
    · rw [hchar, hph] at hlcirc
      exact Or.inr ⟨l, ⟨hl, hlcase⟩, (Option.some_inj.mp hlcirc).symm⟩
  · rintro (⟨k, ⟨hk, hkid⟩, hkprim⟩ | ⟨l, ⟨hl, hlcase⟩, hlcirc⟩)
    · have hkc : k = c := row_unique (fun r => r.id) hndc hk hc hkid
      refine Or.inl ((hchar c.primary_circle_id).mpr ?_)
      rw [hph, ← hkprim, hkc]
    · refine Or.inr ⟨l, hl, hlcase, (hchar l.circle_id).mpr ?_⟩
      rw [hph, hlcirc]

/-- Witness for C1 at the fixture: the clerk of collaborating circle 20 may
view case 100, and 20 is in the entitled set. -/
theorem case_view_iff_home_circle_entitled_witness :
    cases_select_allowed db1 (some 2) case1 = true ∧ (20 : Uuid) ∈ entitledCircles db1 case1.id :=
  ⟨(case_view_iff_home_circle_entitled db1 2 clerkB 20 case1 (by decide) (by decide)
      (by decide) (by decide) (by decide) (by decide)).mpr (by decide),
   by decide⟩

/-- With duplicate-free case ids, the nested subquery test `accessibleCase`
at the id of a present case row agrees with the case-view clause on that
row. -/
theorem accessibleCase_eq_select_using (db : DB) (uid : Uuid) (c : Case)
    (hndc : (db.cases.map (fun k => k.id)).Nodup) (hc : c ∈ db.cases) :
    accessibleCase db uid c.id = cases_select_using db uid c := by
  cases hsel : cases_select_using db uid c with
  | true =>
    simp only [accessibleCase, List.any_eq_true, Bool.and_eq_true, beq_iff_eq]
    exact ⟨c, hc, rfl, hsel⟩
  | false =>
    simp only [accessibleCase, List.any_eq_false, Bool.and_eq_true, beq_iff_eq, not_and]
    intro k hk hkid
    have : k = c := row_unique (fun r => r.id) hndc hk hc hkid
    rw [this, hsel]
    simp

/-- With duplicate-free thread ids, the nested subquery test
`accessibleThread` at the id of a present thread row agrees with
`accessibleCase` on that row's case. -/
theorem accessibleThread_eq (db : DB) (uid : Uuid) (t : CaseThread)
    (hndt : (db.case_threads.map (fun k => k.id)).Nodup) (ht : t ∈ db.case_threads) :
    accessibleThread db uid t.id = accessibleCase db uid t.case_id := by
  cases hacc : accessibleCase db uid t.case_id with
  | true =>
    simp only [accessibleThread, List.any_eq_true, Bool.and_eq_true, beq_iff_eq]
    exact ⟨t, ht, rfl, hacc⟩
  | false =>
    simp only [accessibleThread, List.any_eq_false, Bool.and_eq_true, beq_iff_eq, not_and]
    intro u hu huid
    have : u = t := row_unique (fun r => r.id) hndt hu ht huid
    rw [this, hacc]
    simp

/-- C5: access to messages is inherited transitively through thread and
case — for every thread of a case, every message of that thread and every
caller (authenticated or not), viewing the message is allowed exactly when
viewing the case is. -/
theorem message_view_eq_case_view (db : DB) (a : Actor) (c : Case)
    (t : CaseThread) (m : CaseMessage)
    (hndc : (db.cases.map (fun k => k.id)).Nodup)
    (hndt : (db.case_threads.map (fun k => k.id)).Nodup)
    (hc : c ∈ db.cases) (ht : t ∈ db.case_threads)
    (htc : t.case_id = c.id) (hmt : m.thread_id = t.id) :
    case_messages_select_allowed db a m = cases_select_allowed db a c := by
  cases a with
  | none => rfl
  | some uid =>
    simp only [case_messages_select_allowed, cases_select_allowed, toAuthenticated]
    rw [hmt, accessibleThread_eq db uid t hndt ht, htc,
      accessibleCase_eq_select_using db uid c hndc hc]

/-- Witness for C5 at the fixture: for the unlinked trainee, message 400 of
thread 300 of case 100 is exactly as visible as case 100 (both denied). -/
theorem message_view_eq_case_view_witness :
    case_messages_select_allowed db1 (some 3) message1 = cases_select_allowed db1 (some 3) case1 :=
  message_view_eq_case_view db1 (some 3) case1 thread1 message1 (by decide) (by decide)
    (by decide) (by decide) (by decide) (by decide)

/-- C6: a member of a circle linked to a case as a collaborator, the circle
not being the case's primary circle, may view the case but may not update
the case record, whatever replacement row the update proposes. -/
theorem collaborator_views_but_cannot_update (db : DB) (uid : Uuid)
    (p : UserProfile) (r : Uuid) (c : Case) (l : CaseCircle)
    (hndp : (db.user_profiles.map (fun q => q.id)).Nodup)
    (hp : p ∈ db.user_profiles) (hpid : p.id = uid) (hph : p.circle_id = some r)
    (hne : r ≠ c.primary_circle_id)
    (hl : l ∈ db.case_circles) (hlc : l.case_id = c.id) (hlr : l.circle_id = r) :
    cases_select_allowed db (some uid) c = true ∧
      ∀ c' : Case, cases_update_allowed db (some uid) c c' = false := by
  constructor
  · simp only [cases_select_allowed, toAuthenticated, cases_select_using,
      Bool.or_eq_true, List.contains, List.elem_iff, List.any_eq_true,
      Bool.and_eq_true, beq_iff_eq]
    refine Or.inr ⟨l, hl, hlc, ?_⟩
    refine (userCircleIds_char db uid p hndp hp hpid l.circle_id).mpr ?_
    rw [hph, hlr]
  · intro c'
    have hnotmem : c.primary_circle_id ∉ judgeClerkCircleIds db uid := by
      intro hmem
      have hchr :=
        (judgeClerkCircleIds_char db uid p hndp hp hpid c.primary_circle_id).mp hmem
      exact hne (Option.some_inj.mp (hph.symm.trans hchr.1))
    simp [cases_update_allowed, toAuthenticated, cases_update_using, hnotmem]

/-- Witness for C6 at the fixture: the clerk of collaborating circle 20 can
view case 100 (primary circle 10) but cannot update it. -/
theorem collaborator_views_but_cannot_update_witness :
    cases_select_allowed db1 (some 2) case1 = true ∧
      cases_update_allowed db1 (some 2) case1 case1 = false := by
  have h := collaborator_views_but_cannot_update db1 2 clerkB 20 case1 link1
    (by decide) (by decide) (by decide) (by decide) (by decide) (by decide)
    (by decide) (by decide)
  exact ⟨h.1, h.2 case1⟩

/-- C7: viewing an audit row is allowed exactly when the caller's profile
has role judge; the clause inspects neither the audit row nor any circle, so
a judge sees every audit row and a clerk or trainee none. -/
theorem audit_view_iff_judge (db : DB) (uid : Uuid) (p : UserProfile) (e : AuditLog)
    (hndp : (db.user_profiles.map (fun q => q.id)).Nodup)
    (hp : p ∈ db.user_profiles) (hpid : p.id = uid) :
    audit_logs_select_allowed db (some uid) e = true ↔ p.role = UserRole.judge := by
  simp only [audit_logs_select_allowed, toAuthenticated, List.any_eq_true,
    Bool.and_eq_true, beq_iff_eq]
  constructor
  · rintro ⟨q, hq, hqid, hqrole⟩
    have : q = p := row_unique (fun r => r.id) hndp hq hp (hqid.trans hpid.symm)
    rw [← this]; exact hqrole
  · intro hr
    exact ⟨p, hp, hpid, hr⟩

/-- Witness for C7 at the fixture: the judge (home circle 10) may view the
audit row, and the trainee may not. -/
theorem audit_view_iff_judge_witness :
    audit_logs_select_allowed db1 (some 1) audit1 = true ∧
      audit_logs_select_allowed db1 (some 3) audit1 ≠ true :=
  ⟨(audit_view_iff_judge db1 1 judgeA audit1 (by decide) (by decide) (by decide)).mpr
      (by decide),
   fun hc =>
    absurd
      ((audit_view_iff_judge db1 3 traineeC audit1 (by decide) (by decide) (by decide)).mp hc)
      (by decide)⟩

/-- C2 (code evaluation at the failing input): the spec's
`manage_collaboration` rule admits the judge of the primary circle (here
judge 1, home circle 10, on case 100 whose primary circle is 10), yet the
migration declares no INSERT policy on `case_circles`, so under RLS the
insert of a collaboration link is denied for every caller — the admitted
judge included. -/
theorem case_circles_insert_denied_to_all :
    manage_collaboration_allowed db1 1 case1 = true ∧
      case_circles_insert_allowed db1 (some 1) link1 = false ∧
      ∀ (db : DB) (a : Actor) (l : CaseCircle), case_circles_insert_allowed db a l = false :=
  ⟨by decide, rfl, fun _ _ _ => rfl⟩

/-- C3: writing an audit entry is never gated — the `SECURITY DEFINER`
function `log_audit_event` appends its row for every caller, the
unauthenticated system caller included, performing no authorization check;
and the `audit_logs` INSERT policy is `WITH CHECK (true)`, passing for every
authenticated caller on every row whatever the rest of the database says. -/
theorem audit_write_never_gated :
    (∀ (db : DB) (a : Actor) (pa prt : String) (rid : Option Uuid) (pd : String)
        (newId : Uuid) (now : Nat),
      (log_audit_event a pa prt rid pd newId now db).audit_logs =
        db.audit_logs ++
          [{ id := newId, user_id := a, action := pa, resource_type := prt,
             resource_id := rid, details := pd, ip_address := none,
             user_agent := none, created_at := now }]) ∧
      ∀ (db : DB) (uid : Uuid) (e : AuditLog),
        audit_logs_insert_allowed db (some uid) e = true :=
  ⟨fun _ _ _ _ _ _ _ _ => rfl, fun _ _ _ => rfl⟩

/-- C9 (code evaluation at the failing input): the clerk of collaborating
circle 20, sender of message 400, may view the message, yet the migration
declares no UPDATE policy on `case_messages`, so setting `edited_at` is
denied for every caller — and, as the claim's second half states, no DELETE
policy exists either, so no caller may delete a message. -/
theorem case_messages_no_edit_ever :
    case_messages_select_allowed db1 (some 2) message1 = true ∧
      (∀ (db : DB) (a : Actor) (old curr : CaseMessage),
        case_messages_update_allowed db a old curr = false) ∧
      ∀ (db : DB) (a : Actor) (m : CaseMessage),
        case_messages_delete_allowed db a m = false :=
  ⟨by decide, fun _ _ _ _ => rfl, fun _ _ _ => rfl⟩

/-- C10 counterexample: an authenticated caller whose profile has no home
circle (`circle_id` NULL) is not denied case creation — the INSERT policy on
`cases` checks the role alone, so judge 4 with no home circle may create a
case, contradicting the claim that such callers are denied create on every
case. -/
theorem no_circle_judge_creates_case :
    judgeNoCircle ∈ db1.user_profiles ∧ judgeNoCircle.id = 4 ∧
      judgeNoCircle.circle_id = none ∧
      cases_insert_allowed db1 (some 4) case1 = true := by
  refine ⟨by decide, rfl, rfl, by decide⟩

/-- C10 as amended: a caller all of whose profile rows (none, or one with
`circle_id` NULL) yield no home circle is denied view on every case, thread,
message and document and create on every thread, message and document; a
caller with no profile row at all is additionally denied case creation.
(Case creation is role-gated only, so a judge or clerk profile with no home
circle may still create a case.) -/
theorem no_home_circle_denied (db : DB) (uid : Uuid)
    (h : ∀ p ∈ db.user_profiles, p.id = uid → p.circle_id = none) :
    (∀ c, cases_select_allowed db (some uid) c = false) ∧
      (∀ t, case_threads_select_allowed db (some uid) t = false) ∧
      (∀ t, case_threads_insert_allowed db (some uid) t = false) ∧
      (∀ m, case_messages_select_allowed db (some uid) m = false) ∧
      (∀ m, case_messages_insert_allowed db (some uid) m = false) ∧
      (∀ d, case_documents_select_allowed db (some uid) d = false) ∧
      (∀ d, case_documents_insert_allowed db (some uid) d = false) ∧
      ((∀ p ∈ db.user_profiles, p.id ≠ uid) →
        ∀ c, cases_insert_allowed db (some uid) c = false) := by
  have hnil : userCircleIds db uid = [] := by
    simp only [userCircleIds, List.filterMap_eq_nil_iff, List.mem_filter, beq_iff_eq]
    intro p hp
    exact h p hp.1 hp.2
  have hsel : ∀ c, cases_select_using db uid c = false := by
    intro c
    simp [cases_select_using, hnil]
  have hacc : ∀ cid, accessibleCase db uid cid = false := by
    intro cid
    simp [accessibleCase, hsel]
  have hth : ∀ tid, accessibleThread db uid tid = false := by
    intro tid
    simp [accessibleThread, hacc]
  refine ⟨fun c => ?_, fun t => ?_, fun t => ?_, fun m => ?_, fun m => ?_,
    fun d => ?_, fun d => ?_, fun hnop c => ?_⟩
  · simp [cases_select_allowed, toAuthenticated, hsel]
  · simp [case_threads_select_allowed, toAuthenticated, hacc]
  · simp [case_threads_insert_allowed, toAuthenticated, hacc]
  · simp [case_messages_select_allowed, toAuthenticated, hth]
  · simp [case_messages_insert_allowed, toAuthenticated, hth]
  · simp [case_documents_select_allowed, toAuthenticated, hacc]
  · simp [case_documents_insert_allowed, toAuthenticated, hacc]
  · simp only [cases_insert_allowed, toAuthenticated, cases_insert_check,
      List.any_eq_false, Bool.and_eq_true, beq_iff_eq, not_and]
    intro p hp hpid
    exact absurd hpid (hnop p hp)

/-- Witness for C10 as amended: judge 4 of the fixture has a profile with no
home circle and cannot view case 100; caller 9 has no profile row and cannot
create case 100. -/
theorem no_home_circle_denied_witness :
    cases_select_allowed db1 (some 4) case1 = false ∧
      cases_insert_allowed db1 (some 9) case1 = false :=
  ⟨(no_home_circle_denied db1 4 (by decide)).1 case1,
   (no_home_circle_denied db1 9 (by decide)).2.2.2.2.2.2.2 (by decide) case1⟩

/-- C4: `addCollaboration` is idempotent per (case, circle) — when a first
call succeeds with state `db₁`, the repeated call with the same case, circle
and actor returns `db₁` unchanged and does not error, so two calls yield the
same final entitled-circle set as one. -/
theorem addCollaboration_idempotent (db : DB) (caseId circleId addedBy : Uuid)
    (newId₁ newId₂ : Uuid) (now₁ now₂ : Nat) (db₁ : DB)
    (h : addCollaboration db caseId circleId addedBy newId₁ now₁ = Except.ok db₁) :
    addCollaboration db₁ caseId circleId addedBy newId₂ now₂ = Except.ok db₁ := by
  unfold addCollaboration at h ⊢
  cases hf : db.cases.find? (fun c => c.id == caseId) with
  | none => rw [hf] at h; exact absurd h (by simp)
  | some c =>
    rw [hf] at h
    dsimp only at h
    cases hg : manage_collaboration_allowed db addedBy c with
    | false => rw [if_neg (by simp [hg])] at h; exact absurd h (by simp)
    | true =>
      rw [if_pos hg] at h
      cases hl : db.case_circles.any
          (fun l => l.case_id == caseId && l.circle_id == circleId) with
      | true =>
        rw [if_pos hl, Except.ok.injEq] at h
        subst h
        rw [hf]
        dsimp only
        rw [if_pos hg, if_pos hl]
      | false =>
        rw [if_neg (by simp [hl]), Except.ok.injEq] at h
        subst h
        have hcases :
            ({ db with case_circles := db.case_circles ++
              [{ id := newId₁, case_id := caseId, circle_id := circleId,
                 role := CircleRole.collaborating, added_at := now₁,
                 added_by := addedBy }] } : DB).cases = db.cases := rfl
        rw [hcases, hf]
        dsimp only
        have hg' : manage_collaboration_allowed
            { db with case_circles := db.case_circles ++
              [{ id := newId₁, case_id := caseId, circle_id := circleId,
                 role := CircleRole.collaborating, added_at := now₁,
                 added_by := addedBy }] } addedBy c = true := hg
        rw [if_pos hg']
        rw [if_pos (by simp [List.any_append])]

/-- Extension of the fixture database by the link that `addCollaboration`
inserts for circle 30 on case 100 (used by the idempotence witness). -/
def db1AfterAdd : DB :=
  { db1 with case_circles := db1.case_circles ++
      [{ id := 201, case_id := 100, circle_id := 30,
         role := CircleRole.collaborating, added_at := 5, added_by := 1 }] }

/-- Witness for C4 at the fixture: judge 1 (primary circle 10) adds circle
30 to case 100; the repeated call is a no-op returning the same state. -/
theorem addCollaboration_idempotent_witness :
    addCollaboration db1AfterAdd 100 30 1 202 6 = Except.ok db1AfterAdd :=
  addCollaboration_idempotent db1 100 30 1 201 202 5 6 db1AfterAdd (by rfl)

/-- Membership in the entitled-circle set, spelled out over the two tables
it is drawn from. -/
theorem mem_entitledCircles (db : DB) (caseId x : Uuid) :
    x ∈ entitledCircles db caseId ↔
      (∃ k, k ∈ db.cases ∧ k.id = caseId ∧ k.primary_circle_id = x) ∨
      (∃ l, l ∈ db.case_circles ∧ l.case_id = caseId ∧ l.circle_id = x) := by
  simp only [entitledCircles, List.mem_append, List.mem_map, List.mem_filter, beq_iff_eq]
  constructor
  · rintro (⟨k, ⟨hk, hkid⟩, hkp⟩ | ⟨l, ⟨hl, hlc⟩, hlx⟩)
    · exact Or.inl ⟨k, hk, hkid, hkp⟩
    · exact Or.inr ⟨l, hl, hlc, hlx⟩
  · rintro (⟨k, hk, hkid, hkp⟩ | ⟨l, hl, hlc, hlx⟩)
    · exact Or.inl ⟨k, ⟨hk, hkid⟩, hkp⟩
    · exact Or.inr ⟨l, ⟨hl, hlc⟩, hlx⟩

/-- With duplicate-free profile ids a caller has at most one profile row, so
the judge/clerk circle list is a subsingleton. -/
theorem judgeClerkCircleIds_subsingleton (db : DB) (uid : Uuid)
    (hndp : (db.user_profiles.map (fun q => q.id)).Nodup)
    {x y : Uuid} (hx : x ∈ judgeClerkCircleIds db uid)
    (hy : y ∈ judgeClerkCircleIds db uid) : x = y := by
  simp only [judgeClerkCircleIds, List.mem_filterMap, List.mem_filter,
    Bool.and_eq_true, Bool.or_eq_true, beq_iff_eq] at hx hy
  obtain ⟨q, ⟨hq, hqid, _⟩, hqc⟩ := hx
  obtain ⟨q', ⟨hq', hqid', _⟩, hqc'⟩ := hy
  have : q = q' := row_unique (fun r => r.id) hndp hq hq' (hqid.trans hqid'.symm)
  subst this
  exact Option.some_inj.mp (hqc.symm.trans hqc')

/-- C8: entitlement is monotonic — across any single RLS-gated mutation by
any caller, every circle in a case's entitled-circle set remains in it: no
policy permits deleting or editing a collaboration link, no policy permits
deleting a case, and an allowed case update cannot move the case out of the
updater's single home circle, so the primary circle is unchanged. -/
theorem entitledCircles_monotone (a : Actor) (db db' : DB) (caseId x : Uuid)
    (hndp : (db.user_profiles.map (fun q => q.id)).Nodup)
    (hstep : Step a db db')
    (hx : x ∈ entitledCircles db caseId) : x ∈ entitledCircles db' caseId := by
  cases hstep with
  | insertCircle _ _ => exact hx
  | updateCircle _ _ _ _ _ _ _ => exact hx
  | deleteCircle _ _ _ _ _ => exact hx
  | insertProfile _ _ => exact hx
  | updateProfile _ _ _ _ _ _ _ => exact hx
  | deleteProfile _ _ _ _ _ => exact hx
  | insertThread _ _ => exact hx
  | updateThread _ _ _ _ _ _ _ => exact hx
  | deleteThread _ _ _ _ _ => exact hx
  | insertMessage _ _ => exact hx
  | updateMessage _ _ _ _ _ _ _ => exact hx
  | deleteMessage _ _ _ _ _ => exact hx
  | insertDocument _ _ => exact hx
  | updateDocument _ _ _ _ _ _ _ => exact hx
  | deleteDocument _ _ _ _ _ => exact hx
  | insertAudit _ _ => exact hx
  | updateAudit _ _ _ _ _ _ _ => exact hx
  | deleteAudit _ _ _ _ _ => exact hx
  | insertLink l hg => exact absurd hg (by simp [case_circles_insert_allowed])
  | updateLink _ _ _ _ _ _ hg => exact absurd hg (by simp [case_circles_update_allowed])
  | deleteLink _ _ _ _ hg => exact absurd hg (by simp [case_circles_delete_allowed])
  | deleteCase _ _ _ _ hg => exact absurd hg (by simp [cases_delete_allowed])
  | insertCase c hg =>
    rw [mem_entitledCircles] at hx ⊢
    rcases hx with ⟨k, hk, hrest⟩ | hlink
    · exact Or.inl ⟨k, List.mem_append_left _ hk, hrest⟩
    · exact Or.inr hlink
  | updateCase l₁ l₂ c c' heq hid hg =>
    cases a with
    | none => exact absurd hg (by simp [cases_update_allowed, toAuthenticated])
    | some uid =>
      have hg2 : cases_update_using db uid c = true ∧ cases_update_using db uid c' = true := by
        simpa [cases_update_allowed, toAuthenticated, Bool.and_eq_true] using hg
      have hm1 : c.primary_circle_id ∈ judgeClerkCircleIds db uid := by
        simpa [cases_update_using, List.contains, List.elem_iff] using hg2.1
      have hm2 : c'.primary_circle_id ∈ judgeClerkCircleIds db uid := by
        simpa [cases_update_using, List.contains, List.elem_iff] using hg2.2
      have hprim : c'.primary_circle_id = c.primary_circle_id :=
        judgeClerkCircleIds_subsingleton db uid hndp hm2 hm1
      rw [mem_entitledCircles] at hx ⊢
      rcases hx with ⟨k, hk, hkid, hkprim⟩ | hlink
      · rw [heq] at hk
        rcases List.mem_append.mp hk with hk1 | hk2
        · exact Or.inl ⟨k, List.mem_append_left _ hk1, hkid, hkprim⟩
        · rcases List.mem_cons.mp hk2 with hkc | hk3
          · subst hkc
            exact Or.inl ⟨c', List.mem_append_right _ (List.mem_cons_self _ _),
              hid.trans hkid, hprim.trans hkprim⟩
          · exact Or.inl ⟨k, List.mem_append_right _ (List.mem_cons_of_mem _ hk3),
              hkid, hkprim⟩
      · exact Or.inr hlink

/-- A fresh case appended by the monotonicity witness step. -/
def case2 : Case :=
  { id := 101, case_number := "CASE-2", title := "t2", description := none,
    status := CaseStatus.open_, priority := CasePriority.low,
    primary_circle_id := 10, created_by := 1, assigned_judge := none,
    created_at := 1, updated_at := 1 }

/-- The fixture database after judge 1 inserts `case2` (used by the
monotonicity witness). -/
def db1AfterInsert : DB :=
  { db1 with cases := db1.cases ++ [case2] }

/-- Witness for C8 at the fixture: collaborating circle 20 stays entitled on
case 100 across the allowed insertion of a new case by judge 1. -/
theorem entitledCircles_monotone_witness :
    (20 : Uuid) ∈ entitledCircles db1AfterInsert 100 :=
  entitledCircles_monotone (some 1) db1 db1AfterInsert 100 20 (by decide)
    (Step.insertCase db1 case2 (by decide)) (by decide)

end CircleAccess
